import Mathlib

/-!
# js2midi: joystick events to MIDI drum events

A shallow embedding of `src/js2midi.cpp`: the listener loop body (`jslistener`),
the sink (`hit_drum`), the dispatcher (`main`) and the configuration file
writer and reader (`writeconfig`, `readconfig`).

Conventions.
* C `int` values are `Int`; bytes (`char` contents of strings, `__u8` fields) are `Nat`.
* An access outside the bounds of an array or of an allocated block has no defined
  result in C; the embedding returns `none` there.
* Plain `char` is signed on some ABIs (x86, x86-64) and unsigned on others
  (ARM, PowerPC); the conversion `int -> char` takes the signedness as a
  parameter `signedChar`.
-/

namespace Js2midi

/-! ## Constants -/

/-- Source: `#define js_devices 16`. -/
def js_devices : Nat := 16

/-- Source: `#define max_buttons 16`. -/
def max_buttons : Nat := 16

/-- Source: `#define max_axes 12`. -/
def max_axes : Nat := 12

/-- Source: `static const int chan_no = 10;`. -/
def chan_no : Int := 10

/-- Value of `JS_EVENT_BUTTON` in `linux/joystick.h`. -/
def JS_EVENT_BUTTON : Nat := 1

/-- Value of `JS_EVENT_AXIS` in `linux/joystick.h`. -/
def JS_EVENT_AXIS : Nat := 2

/-- Value of `JS_EVENT_INIT` in `linux/joystick.h`. -/
def JS_EVENT_INIT : Nat := 128

/-! ## Data model -/

/-- The record `struct js_event` of `linux/joystick.h`:
`__u32 time; __s16 value; __u8 type; __u8 number;`. -/
structure js_event where
  time : Nat
  value : Int
  type : Nat
  number : Nat
  deriving DecidableEq, Repr

/-- The fields a `struct js_event` can hold: each within its machine type. -/
def js_event.inRange (e : js_event) : Prop :=
  e.time < 2 ^ 32 ∧ (-32768 ≤ e.value ∧ e.value ≤ 32767) ∧ e.type < 256 ∧ e.number < 256

instance (e : js_event) : Decidable e.inRange := by
  unfold js_event.inRange; infer_instance

/-- The globals `int buttons[js_devices][max_buttons]` and
`int axes[js_devices][max_axes]`, as rows of entries. -/
structure Tables where
  buttons : List (List Int)
  axes : List (List Int)
  deriving DecidableEq, Repr

/-- The tables have the declared dimensions. -/
def Tables.wellSized (t : Tables) : Prop :=
  t.buttons.length = js_devices ∧ (∀ row ∈ t.buttons, row.length = max_buttons) ∧
  t.axes.length = js_devices ∧ (∀ row ∈ t.axes, row.length = max_axes)

instance (t : Tables) : Decidable t.wellSized := by
  unfold Tables.wellSized; infer_instance

/-- The access `tbl[d][n]`, `none` when `d` or `n` is outside the declared bounds. -/
def lookup (tbl : List (List Int)) (d n : Nat) : Option Int :=
  (tbl[d]?).bind (fun row => row[n]?)

/-- The kind of a sequencer event set by `hit_drum`. -/
inductive SeqEventType where
  | NOTEON
  | NOTEOFF
  deriving DecidableEq, Repr

/-- The part of `snd_seq_event_t` that `hit_drum` sets: the type and the
`unsigned char` fields `data.note.channel`, `data.note.note`, `data.note.velocity`. -/
structure snd_seq_event where
  type : SeqEventType
  channel : Nat
  note : Nat
  velocity : Nat
  deriving DecidableEq, Repr

/-- Conversion of an `int` to `unsigned char`. -/
def toUChar (x : Int) : Nat := (x % 256).toNat

/-- Conversion of an `int` to plain `char`, read back as `int`. -/
def toChar (signedChar : Bool) (x : Int) : Int :=
  if signedChar then (x + 128) % 256 - 128 else x % 256

/-- The ALSA macro `snd_seq_ev_set_noteon(ev, ch, key, vel)`. -/
def snd_seq_ev_set_noteon (ch key vel : Int) : snd_seq_event :=
  { type := .NOTEON, channel := toUChar ch, note := toUChar key, velocity := toUChar vel }

/-- The ALSA macro `snd_seq_ev_set_noteoff(ev, ch, key, vel)`. -/
def snd_seq_ev_set_noteoff (ch key vel : Int) : snd_seq_event :=
  { type := .NOTEOFF, channel := toUChar ch, note := toUChar key, velocity := toUChar vel }

/-- One call `hit_drum(note, is_hit, vel)` with its three `int` arguments. -/
structure HitCall where
  note : Int
  is_hit : Int
  vel : Int
  deriving DecidableEq, Repr

/-- Source: `hit_drum`. The event it stores in `ev` and sends:
`is_hit ? snd_seq_ev_set_noteon(&ev, chan_no, note, vel)
        : snd_seq_ev_set_noteoff(&ev, chan_no, note, 0)`. -/
def hit_drum (note is_hit vel : Int) : snd_seq_event :=
  if is_hit ≠ 0 then snd_seq_ev_set_noteon chan_no note vel
  else snd_seq_ev_set_noteoff chan_no note 0

/-- The events that reach the sequencer for a trace of `hit_drum` calls. -/
def sent (calls : List HitCall) : List snd_seq_event :=
  calls.map (fun c => hit_drum c.note c.is_hit c.vel)

/-- What one listener reads and writes between events: the global `hhShift`
and its local `char vel`. -/
structure ListenerState where
  hhShift : Int
  vel : Int
  deriving DecidableEq, Repr

/-- The test `(e.type & ~JS_EVENT_INIT) == JS_EVENT_BUTTON`, the complement taken
in 32-bit `int`. -/
def isButton (e : js_event) : Bool :=
  (e.type &&& (0xFFFFFFFF - JS_EVENT_INIT)) == JS_EVENT_BUTTON

/-- Source: `jslistener`, the body of the `while (read(...) > 0)` loop for one event
`e` read by the listener of device `d`. Returns the new state and the calls of
`hit_drum` made, `none` when a table is indexed outside its bounds. -/
def jslistener_step (signedChar : Bool) (t : Tables) (d : Nat) (s : ListenerState)
    (e : js_event) : Option (ListenerState × List HitCall) :=
  if isButton e then
    let vel := toChar signedChar 127
    match lookup t.buttons d e.number with
    | none => none
    | some entry =>
      if entry ≠ 0 then
        let midicode := entry
        let hhShift := if midicode = 44 then e.value else s.hhShift
        let midicode := if hhShift ≠ 0 then (if midicode = 46 then 42 else midicode) else midicode
        some ({ hhShift := hhShift, vel := vel }, [{ note := midicode, is_hit := e.value, vel := vel }])
      else
        some ({ hhShift := s.hhShift, vel := vel }, [])
  else
    let v : Int := if e.value ≠ 0 then 1 else 0
    let vel := toChar signedChar (Int.natAbs (Int.tdiv e.value 256))
    match lookup t.axes d e.number with
    | none => none
    | some entry =>
      if entry ≠ 0 then
        some ({ hhShift := s.hhShift, vel := vel }, [{ note := entry, is_hit := v, vel := vel }])
      else
        some ({ hhShift := s.hhShift, vel := vel }, [])

/-- Source: `jslistener`, the `while` loop over the events that `read` delivers,
in order; the calls of `hit_drum` are collected in order. -/
def jslistener_loop (signedChar : Bool) (t : Tables) (d : Nat) :
    ListenerState → List js_event → Option (ListenerState × List HitCall)
  | s, [] => some (s, [])
  | s, e :: es =>
    match jslistener_step signedChar t d s e with
    | none => none
    | some (s1, out1) =>
      match jslistener_loop signedChar t d s1 es with
      | none => none
      | some (s2, out2) => some (s2, out1 ++ out2)

/-- Source: `jslistener`. The thread body for `thread_no = d`: the guard on `d`,
`char vel = 127`, then the loop. Returns the final `hhShift` and the calls made. -/
def jslistener (signedChar : Bool) (t : Tables) (d : Int) (hhShift : Int)
    (events : List js_event) : Option (Int × List HitCall) :=
  if d < 0 ∨ d ≥ js_devices then some (hhShift, [])
  else
    (jslistener_loop signedChar t d.toNat { hhShift := hhShift, vel := toChar signedChar 127 }
      events).map (fun r => (r.1.hhShift, r.2))

/-! ## The dispatcher -/

/-- Source: `main`, the first `for` loop at one slot `d`: `fd[d] = -1`, and for a
configured slot (`devices[d]` not `NULL`) `fd[d] = open(...)`, then, when
`fd[d] >= 0`, `pthread_create`. `openRes d` is the value `open` returns for slot `d`,
`createRes d` the value `pthread_create` returns. The result is `fd[d]` after the
loop and whether a listener thread was created for the slot. -/
def main_slot (devices : List (Option (List Nat))) (openRes createRes : Nat → Int)
    (d : Nat) : Int × Bool :=
  match devices[d]?.join with
  | none => (-1, false)
  | some _ =>
    let fd := openRes d
    if fd < 0 then (fd, false)
    else if createRes d ≠ 0 then (fd, false)
    else (fd, true)

/-- The observable outcome of `main`: the exit code, the slots whose listener thread
was created (each runs `jslistener` on its slot), and the slots on which
`pthread_join` is called. -/
structure MainResult where
  exitCode : Int
  listeners : List Nat
  joined : List Nat
  deriving DecidableEq, Repr

/-- Source: `main` after `readconfig`. `seqOk` is the result of `open_sequencer`. The
second loop counts in `ct` every slot with `fd[x] >= 0` and joins it; the exit code
is 0 when `ct` is nonzero and 1 otherwise. -/
def main (seqOk : Bool) (devices : List (Option (List Nat))) (openRes createRes : Nat → Int) :
    MainResult :=
  if !seqOk then { exitCode := 1, listeners := [], joined := [] }
  else
    let slots := List.range js_devices
    let listeners := slots.filter (fun d => (main_slot devices openRes createRes d).2)
    let joined := slots.filter (fun x => decide ((main_slot devices openRes createRes x).1 ≥ 0))
    let ct := joined.length
    { exitCode := if ct ≠ 0 then 0 else 1, listeners := listeners, joined := joined }

/-! ## The configuration file -/

/-- The bytes of a string literal of the source (UTF-8, as the source file is). -/
def bytes (s : String) : List Nat :=
  s.toUTF8.data.toList.map (fun u => u.toNat)

/-- The output of `printf("%d", n)`. -/
def fmt_d (n : Int) : List Nat :=
  if n < 0 then 45 :: (Nat.toDigits 10 n.natAbs).map (fun ch => ch.toNat)
  else (Nat.toDigits 10 n.natAbs).map (fun ch => ch.toNat)

/-- The arguments `devices`, `b`, `a` of `writeconfig` and `readconfig`: the device
names (`NULL` is `none`, a name is its bytes) and the two tables. -/
structure Config where
  devices : List (Option (List Nat))
  b : List (List Int)
  a : List (List Int)
  deriving DecidableEq, Repr

/-- The tables of a configuration, as the listeners read them. -/
def Config.tables (c : Config) : Tables := { buttons := c.b, axes := c.a }

/-- The assignment `tbl[y][x] = v` for indices inside the bounds. -/
def assign (tbl : List (List Int)) (y x : Nat) (v : Int) : List (List Int) :=
  tbl.set y ((tbl.getD y []).set x v)

/-- The assignment `tbl[y][x] = v` with `int` indices, `none` outside the bounds. -/
def store (tbl : List (List Int)) (y x : Int) (v : Int) : Option (List (List Int)) :=
  if 0 ≤ y ∧ 0 ≤ x then
    match tbl[y.toNat]? with
    | none => none
    | some row => if x.toNat < row.length then some (assign tbl y.toNat x.toNat v) else none
  else none

/-- Source: `writeconfig`, the string `header`. -/
def header : String :=
  "#joystick to midi config file\n#35 Bass Drum 2\n#36 Bass Drum 1\n#37 Side Stick/Rimshot\n#38 Snare Drum 1\n#39 Hand Clap\n#40 Snare Drum 2\n#41 Low Tom 2\n#42 Closed Hi-hat\n#43 Low Tom 1\n#44 Pedal Hi-hat\n#45 Mid Tom 2\n#46 Open Hi-hat\n#47 Mid Tom 1\n#48 High Tom 2\n#49 Crash Cymbal 1\n#50 High Tom 1\n#51 Ride Cymbal 1\n#52 Chinese Cymbal\n#53 Ride Bell\n#54 Tambourine\n#55 Splash Cymbal\n#56 Cowbell\n#57 Crash Cymbal 2\n#58 Vibra Slap\n#59 Ride Cymbal 2\n#60 High Bongo\n#61 Low Bongo\n#62 Mute High Conga\n#63 Open High Conga\n#64 Low Conga\n#65 High Timbale\n#66 Low Timbale\n#67 High Agogô\n#68 Low Agogô\n#69 Cabasa\n#70 Maracas\n#71 Short Whistle\n#72 Long Whistle\n#73 Short Güiro\n#74 Long Güiro\n#75 Claves\n#76 High Wood Block\n#77 Low Wood Block\n#78 Mute Cuíca\n#79 Open Cuíca\n#80 Mute Triangle\n#81 Open Triangle\n\n#----------\n#Wii Rock Band:\n#b0:blue\n#b1:green\n#b2:red\n#b3:yellow\n#b4:orange\n#b8:-\n#b9:+\n#a4:dpad up/down\n#a5:dpad left/right\n\n#----------\n#Xbox Rock Band\n#b0:green\n#b1:red\n#b2:blue\n#b3:yellow#b4:orange\n#b6:select\n#b7:start\n#b8:xbox\n#b11:dpad left\n#b12:dpad right\n#b13:dpad up\n#b14:dpad down\n\n"

/-- Source: `writeconfig`, the block `//set defaults`. -/
def set_defaults (c : Config) : Config :=
  { devices := (c.devices.set 0 (some (bytes "/dev/input/js0"))).set 1
      (some (bytes "/dev/input/js1")),
    b := [((0 : Nat), (0 : Nat), (59 : Int)), (0, 1, 49), (0, 2, 38), (0, 3, 46), (0, 4, 44),
          (1, 0, 41), (1, 1, 48), (1, 2, 43), (1, 3, 45), (1, 4, 35), (1, 6, 55), (1, 7, 52),
          (1, 8, 53), (1, 11, 60), (1, 12, 61), (1, 13, 62), (1, 14, 63)].foldl
          (fun tbl w => assign tbl w.1 w.2.1 w.2.2) c.b,
    a := [((0 : Nat), (4 : Nat), (51 : Int)), (0, 5, 54)].foldl
          (fun tbl w => assign tbl w.1 w.2.1 w.2.2) c.a }

/-- Source: `writeconfig`, the inner loops: the lines `<tag><index>=<value>` for the
nonzero entries of one row, the index below `n`. -/
def write_row (tag : String) (n : Nat) (row : List Int) : List Nat :=
  (List.range n).flatMap (fun x =>
    if row.getD x 0 ≠ 0 then bytes tag ++ fmt_d x ++ bytes "=" ++ fmt_d (row.getD x 0) ++ bytes "\n"
    else [])

/-- Source: `writeconfig`, the text written to the file: the header, then for every
slot with a device name its section. -/
def config_text (c : Config) : List Nat :=
  bytes header ++
  (List.range js_devices).flatMap (fun y =>
    match c.devices[y]?.join with
    | none => []
    | some name =>
      bytes "[" ++ name ++ bytes "]\n" ++
      write_row "b" max_buttons (c.b.getD y []) ++
      write_row "a" max_axes (c.a.getD y []) ++
      bytes "\n")

/-- Source: `writeconfig`. Installs the defaults and writes the file; `canWrite` is
whether `fopen(fn, "w")` succeeds (the code prints to the stream without a check, so
a failure has no defined result). Returns the configuration and the file text. -/
def writeconfig (canWrite : Bool) (c : Config) : Option (Config × List Nat) :=
  if canWrite then some (set_defaults c, config_text (set_defaults c)) else none

/-- The C library function `isalnum` in the "C" locale, on a byte. -/
def isalnum (c : Nat) : Bool :=
  (48 ≤ c && c ≤ 57) || (65 ≤ c && c ≤ 90) || (97 ≤ c && c ≤ 122)

/-- The C library function `isspace` in the "C" locale, on a byte. -/
def isspace (c : Nat) : Bool :=
  c == 32 || (9 ≤ c && c ≤ 13)

/-- The value of the leading decimal digits of a byte string, from accumulator `acc`. -/
def digits_value : List Nat → Nat → Nat
  | [], acc => acc
  | ch :: rest, acc =>
    if 48 ≤ ch ∧ ch ≤ 57 then digits_value rest (acc * 10 + (ch - 48)) else acc

/-- The C library function `atoi` as glibc defines it, `(int) strtol(s, NULL, 10)`:
leading white space, an optional sign, the leading digits; the `long` result
saturates and is then cut to 32 bits. -/
def atoi (s : List Nat) : Int :=
  let s1 := s.dropWhile isspace
  let neg := s1.head? == some 45
  let s2 := if s1.head? == some 45 ∨ s1.head? == some 43 then s1.tail else s1
  let n : Int := digits_value s2 0
  let l : Int := if neg then max (-n) (-(2 ^ 63)) else min n (2 ^ 63 - 1)
  (l + 2 ^ 31) % 2 ^ 32 - 2 ^ 31

/-- The locals of `readconfig` while it parses: the last byte read `c`, the string in
`buffer`, `bufpos`, `dev`, and the configuration being filled. -/
structure ParseState where
  c : Nat
  buffer : List Nat
  bufpos : Nat
  dev : Int
  cfg : Config
  deriving DecidableEq, Repr

/-- Source: `readconfig`, the two blocks `if(buffer[0]=='b')` and `if(buffer[0]=='a')`
for the table `tbl` with first byte `tag`: `buffer2` is the buffer after its first
byte, split at the first `=`; the entry `tbl[dev][atoi(key)]` is set to
`atoi(value)`. -/
def parse_entry (tag : Nat) (buffer : List Nat) (dev : Int) (tbl : List (List Int)) :
    Option (List (List Int)) :=
  if buffer.head? = some tag then
    let buffer2 := buffer.tail
    match buffer2.span (fun ch => ch != 61) with
    | (_, []) => some tbl
    | (key, _ :: vptr) => store tbl dev (atoi key) (atoi vptr)
  else some tbl

/-- The number of bytes that the C standard guarantees in the block returned by
`calloc(n, sizeof(char))`: exactly `n`. -/
def calloc_exact (n : Nat) : Nat := n

/-- Source: `readconfig`, the block `if(c=='\n')`: the line held in `buffer` is
interpreted and the buffer is emptied. A line `[name]` moves to the next slot and
stores the name: `devices[dev] = calloc(strlen(buffer)-1, sizeof(char))`, then
`strcpy(devices[dev], buffer+1)` writes the `strlen(buffer+1)` bytes after the bracket
and the terminating zero into that block, then the closing bracket is overwritten by
zero. `usable n` is the number of bytes that can be written to the block `calloc`
returns for a request of `n` bytes (`calloc_exact` is what C guarantees); when `strcpy`
writes more, the result is `none`. -/
def end_of_line (usable : Nat → Nat) (st : ParseState) : Option ParseState :=
  let buffer := st.buffer
  let r1 : Option (Int × List (Option (List Nat))) :=
    if buffer.head? = some 91 then
      if buffer.getLast? = some 93 then
        let dev := st.dev + 1
        if 0 ≤ dev ∧ dev < js_devices then
          if buffer.tail.length + 1 ≤ usable (buffer.length - 1) then
            some (dev, st.cfg.devices.set dev.toNat (some buffer.tail.dropLast))
          else none
        else none
      else some (st.dev, st.cfg.devices)
    else some (st.dev, st.cfg.devices)
  match r1 with
  | none => none
  | some (dev, devices) =>
    match parse_entry 98 buffer dev st.cfg.b with
    | none => none
    | some b =>
      match parse_entry 97 buffer dev st.cfg.a with
      | none => none
      | some a =>
        some { c := st.c, buffer := [], bufpos := 0, dev := dev,
               cfg := { devices := devices, b := b, a := a } }

/-- Source: `readconfig`, the `else` block `//add do buffer`: a byte that passes the
filter is stored at `bufpos` and the string is terminated after it. -/
def add_to_buffer (st : ParseState) : ParseState :=
  if st.bufpos < 79 then
    if isalnum st.c || st.c == 61 || st.c == 47 || st.c == 91 || st.c == 93 then
      { st with buffer := st.buffer.take st.bufpos ++ [st.c], bufpos := st.bufpos + 1 }
    else st
  else st

/-- Source: `readconfig`, the end of the loop body: `if(c=='\n') ... else ...`. -/
def line_or_add (usable : Nat → Nat) (st : ParseState) : Option ParseState :=
  if st.c = 10 then end_of_line usable { st with bufpos := 0 } else some (add_to_buffer st)

/-- Source: `readconfig`, the loop `while(!feof(configFile))` with its inner comment
loop, over the bytes still unread. `inComment` says that control is inside the inner
`while(1)`. At the end of the file `fscanf` stores nothing: in the outer loop the body
runs once more on the old `c` before `feof` ends the loop; in the inner loop `c`
becomes a newline. -/
def read_loop (usable : Nat → Nat) : List Nat → Bool → ParseState → Option ParseState
  | [], false, st =>
    if st.c = 35 then end_of_line usable { st with c := 10, bufpos := 0 }
    else line_or_add usable st
  | [], true, st => end_of_line usable { st with c := 10, bufpos := 0 }
  | ch :: rest, true, st =>
    if ch = 10 then
      match end_of_line usable { st with c := 10, bufpos := 0 } with
      | none => none
      | some st1 => read_loop usable rest false st1
    else read_loop usable rest true { st with c := ch }
  | ch :: rest, false, st =>
    if ch = 35 then read_loop usable rest true { st with c := ch, bufpos := 0 }
    else
      match line_or_add usable { st with c := ch } with
      | none => none
      | some st1 => read_loop usable rest false st1

/-- Source: `readconfig`, the first loop: every slot cleared. -/
def cleared : Config :=
  { devices := List.replicate js_devices none,
    b := List.replicate js_devices (List.replicate max_buttons 0),
    a := List.replicate js_devices (List.replicate max_axes 0) }

/-- Source: `readconfig`. `file` is the content of the configuration file, `none`
when `fopen` finds none; `c0` is the value the uninitialised local `c` happens to
hold; `usable` is the size of the blocks `calloc` returns (see `end_of_line`). Returns
the configuration and, on a first run, the text written by `writeconfig`; `none` when
an access leaves the bounds of an array or of an allocated block. -/
def readconfig (usable : Nat → Nat) (c0 : Nat) (file : Option (List Nat)) (canWrite : Bool) :
    Option (Config × Option (List Nat)) :=
  match file with
  | none => (writeconfig canWrite cleared).map (fun r => (r.1, some r.2))
  | some text =>
    (read_loop usable text false
      { c := c0, buffer := [], bufpos := 0, dev := -1, cfg := cleared }).map
      (fun st => (st.cfg, none))

/-- Source: `writeconfig`, lines `devices[0]=...` to `b[1][14]=63`: the values held by
`devices`, `b` and `a` after the defaults are set on cleared tables, written out. -/
def first_run_config : Config :=
  { devices := [some (bytes "/dev/input/js0"), some (bytes "/dev/input/js1"),
      none, none, none, none, none, none, none, none, none, none, none, none, none, none],
    b := [[59, 49, 38, 46, 44, 0, 0, 0, 0, 0, 0, 0, 0, 0, 0, 0],
          [41, 48, 43, 45, 35, 0, 55, 52, 53, 0, 0, 60, 61, 62, 63, 0]] ++
         List.replicate 14 [0, 0, 0, 0, 0, 0, 0, 0, 0, 0, 0, 0, 0, 0, 0, 0],
    a := [[0, 0, 0, 0, 51, 54, 0, 0, 0, 0, 0, 0]] ++
         List.replicate 15 [0, 0, 0, 0, 0, 0, 0, 0, 0, 0, 0, 0] }

/-- The file a first run writes, written out: the header, then the two device sections
with their nonzero entries, each closed by an empty line. -/
def first_run_text : List Nat :=
  bytes header ++ bytes "[/dev/input/js0]\nb0=59\nb1=49\nb2=38\nb3=46\nb4=44\na4=51\na5=54\n\n[/dev/input/js1]\nb0=41\nb1=48\nb2=43\nb3=45\nb4=35\nb6=55\nb7=52\nb8=53\nb11=60\nb12=61\nb13=62\nb14=63\n\n"

/-- The tables a first run installs: `readconfig` clears, `writeconfig` sets the
defaults. -/
def default_tables : Tables := (set_defaults cleared).tables

/-- The events allowed between the two hi-hat events of the idempotence property: an
axis event, or a button event whose entry is not the pedal note 44; in both cases the
table access is inside the bounds. -/
def leavesPedal (t : Tables) (d : Nat) (m : js_event) : Prop :=
  if isButton m then
    (lookup t.buttons d m.number).isSome = true ∧ lookup t.buttons d m.number ≠ some 44
  else (lookup t.axes d m.number).isSome = true

instance (t : Tables) (d : Nat) (m : js_event) : Decidable (leavesPedal t d m) := by
  unfold leavesPedal; infer_instance

/-- The default tables with the pedal note 44 also on button 0 of slot 1, as a line
`b0=44` in the second section of the configuration file sets it. -/
def pedal_on_slot1 : Tables :=
  { buttons := assign default_tables.buttons 1 0 44, axes := default_tables.axes }

/-! ## Elementary facts -/

theorem toChar_127 (signedChar : Bool) : toChar signedChar 127 = 127 := by
  cases signedChar <;> decide

theorem toChar_of_lt_128 (signedChar : Bool) (x : Int) (h0 : 0 ≤ x) (h1 : x < 128) :
    toChar signedChar x = x := by
  cases signedChar <;> simp only [toChar] <;> simp <;> omega

theorem natAbs_tdiv_256 (v : Int) : ((Int.natAbs (Int.tdiv v 256) : Nat) : Int) = |v| / 256 := by
  rw [Int.natAbs_tdiv]
  have h : (Int.natAbs 256 : Nat) = 256 := rfl
  rw [h, Int.abs_eq_natAbs]
  rfl

theorem hit_drum_on (note is_hit vel : Int) (h : is_hit ≠ 0) :
    hit_drum note is_hit vel =
      { type := .NOTEON, channel := 10, note := toUChar note, velocity := toUChar vel } := by
  simp [hit_drum, h, snd_seq_ev_set_noteon, chan_no, toUChar]

theorem hit_drum_off (note vel : Int) :
    hit_drum note 0 vel = { type := .NOTEOFF, channel := 10, note := toUChar note, velocity := 0 } := by
  simp [hit_drum, snd_seq_ev_set_noteoff, chan_no, toUChar]

/-- A button event with a nonzero entry: the step as one equation. -/
theorem step_button_mapped (signedChar : Bool) (t : Tables) (d : Nat) (s : ListenerState)
    (e : js_event) (n : Int) (hb : isButton e = true) (hn : lookup t.buttons d e.number = some n)
    (hn0 : n ≠ 0) :
    jslistener_step signedChar t d s e =
      some ({ hhShift := if n = 44 then e.value else s.hhShift, vel := 127 },
            [{ note := if (if n = 44 then e.value else s.hhShift) ≠ 0
                       then (if n = 46 then 42 else n) else n,
               is_hit := e.value, vel := 127 }]) := by
  simp [jslistener_step, hb, hn, hn0, toChar_127]

/-- An axis event with an entry inside the table: the modifier is left as it was. -/
theorem step_axis (signedChar : Bool) (t : Tables) (d : Nat) (s : ListenerState)
    (e : js_event) (n : Int) (hb : isButton e = false) (hn : lookup t.axes d e.number = some n) :
    ∃ s1 out, jslistener_step signedChar t d s e = some (s1, out) ∧ s1.hhShift = s.hhShift := by
  by_cases hn0 : n = 0 <;> simp [jslistener_step, hb, hn, hn0]

theorem loop_cons (signedChar : Bool) (t : Tables) (d : Nat) (s s1 s2 : ListenerState)
    (e : js_event) (es : List js_event) (o1 o2 : List HitCall)
    (h1 : jslistener_step signedChar t d s e = some (s1, o1))
    (h2 : jslistener_loop signedChar t d s1 es = some (s2, o2)) :
    jslistener_loop signedChar t d s (e :: es) = some (s2, o1 ++ o2) := by
  simp [jslistener_loop, h1, h2]

theorem loop_append (signedChar : Bool) (t : Tables) (d : Nat) (xs ys : List js_event) :
    ∀ (s s1 s2 : ListenerState) (o1 o2 : List HitCall),
      jslistener_loop signedChar t d s xs = some (s1, o1) →
      jslistener_loop signedChar t d s1 ys = some (s2, o2) →
      jslistener_loop signedChar t d s (xs ++ ys) = some (s2, o1 ++ o2) := by
  induction xs with
  | nil =>
    intro s s1 s2 o1 o2 h1 h2
    simp only [jslistener_loop, Option.some.injEq, Prod.mk.injEq] at h1
    obtain ⟨hs, ho⟩ := h1
    subst hs
    subst ho
    simpa using h2
  | cons x xs ih =>
    intro s s1 s2 o1 o2 h1 h2
    simp only [jslistener_loop] at h1
    cases hx : jslistener_step signedChar t d s x with
    | none => simp [hx] at h1
    | some r =>
      obtain ⟨sx, ox⟩ := r
      simp only [hx] at h1
      cases hr : jslistener_loop signedChar t d sx xs with
      | none => simp [hr] at h1
      | some q =>
        obtain ⟨sq, oq⟩ := q
        simp only [hr, Option.some.injEq, Prod.mk.injEq] at h1
        obtain ⟨hs, ho⟩ := h1
        subst hs
        subst ho
        have := ih sx sq s2 oq o2 hr h2
        simp [jslistener_loop, hx, this]

/-- An event that is not a button event mapped to 44 and whose table access is inside
the bounds leaves `hhShift` as it was. -/
theorem step_keeps_modifier (signedChar : Bool) (t : Tables) (d : Nat) (s : ListenerState)
    (m : js_event) (hm : leavesPedal t d m) :
    ∃ s1 out, jslistener_step signedChar t d s m = some (s1, out) ∧ s1.hhShift = s.hhShift := by
  unfold leavesPedal at hm
  cases hb : isButton m with
  | false =>
    simp only [hb, Bool.false_eq_true, if_false] at hm
    obtain ⟨n, hn⟩ := Option.isSome_iff_exists.mp hm
    exact step_axis signedChar t d s m n hb hn
  | true =>
    simp only [hb, if_true] at hm
    obtain ⟨n, hn⟩ := Option.isSome_iff_exists.mp hm.1
    have h44 : n ≠ 44 := by
      intro h
      exact hm.2 (by rw [hn, h])
    by_cases hn0 : n = 0
    · subst hn0
      exact ⟨⟨s.hhShift, toChar signedChar 127⟩, [], by simp [jslistener_step, hb, hn], rfl⟩
    · exact ⟨_, _, step_button_mapped signedChar t d s m n hb hn hn0, by simp [h44]⟩

theorem loop_keeps_modifier (signedChar : Bool) (t : Tables) (d : Nat) (mid : List js_event) :
    ∀ (s : ListenerState), (∀ m ∈ mid, leavesPedal t d m) →
      ∃ s1 out, jslistener_loop signedChar t d s mid = some (s1, out) ∧
        s1.hhShift = s.hhShift := by
  induction mid with
  | nil => intro s _; exact ⟨s, [], rfl, rfl⟩
  | cons m ms ih =>
    intro s hmid
    obtain ⟨s1, o1, h1, e1⟩ := step_keeps_modifier signedChar t d s m (hmid m (by simp))
    obtain ⟨s2, o2, h2, e2⟩ := ih s1 (fun x hx => hmid x (by simp [hx]))
    exact ⟨s2, o1 ++ o2, loop_cons signedChar t d s s1 s2 m ms o1 o2 h1 h2, by rw [e2, e1]⟩

theorem lookup_in_bounds (tbl : List (List Int)) (rows cols d n : Nat)
    (hr : tbl.length = rows) (hc : ∀ row ∈ tbl, row.length = cols) (hd : d < rows)
    (hn : n < cols) : ∃ v, lookup tbl d n = some v := by
  have hd2 : d < tbl.length := by omega
  have hrow : (tbl.get ⟨d, hd2⟩).length = cols := hc _ (List.get_mem _ _ _)
  have hn2 : n < (tbl.get ⟨d, hd2⟩).length := by omega
  refine ⟨(tbl.get ⟨d, hd2⟩).get ⟨n, hn2⟩, ?_⟩
  simp [lookup, List.getElem?_eq_getElem hd2, List.getElem?_eq_getElem hn2]

theorem read_loop_first_byte (usable : Nat → Nat) (text : List Nat) (hne : text ≠ [])
    (c0 c1 : Nat) (buffer : List Nat) (bufpos : Nat) (dev : Int) (cfg : Config) :
    read_loop usable text false
      { c := c0, buffer := buffer, bufpos := bufpos, dev := dev, cfg := cfg } =
    read_loop usable text false
      { c := c1, buffer := buffer, bufpos := bufpos, dev := dev, cfg := cfg } := by
  cases text with
  | nil => exact absurd rfl hne
  | cons ch rest => simp [read_loop]

theorem main_slot_listener_opened (devices : List (Option (List Nat)))
    (openRes createRes : Nat → Int) (d : Nat)
    (h : (main_slot devices openRes createRes d).2 = true) :
    (main_slot devices openRes createRes d).1 ≥ 0 := by
  unfold main_slot at h ⊢
  generalize devices[d]?.join = slot at h ⊢
  cases slot with
  | none => simp at h
  | some name =>
    simp only at h ⊢
    by_cases hfd : openRes d < 0
    · simp [hfd] at h
    · by_cases hcr : createRes d ≠ 0
      · simp [hfd, hcr] at h
      · simp only [hfd, hcr, if_false]
        omega

/-- A thread started with a slot number outside `0 .. js_devices - 1` reads no event and
makes no call of `hit_drum`. -/
theorem jslistener_guard (signedChar : Bool) (t : Tables) (d : Int) (hhShift : Int)
    (events : List js_event) (hd : d < 0 ∨ d ≥ js_devices) :
    jslistener signedChar t d hhShift events = some (hhShift, []) := by
  simp [jslistener, hd]

/-! ## The listener step -/

/-- C1: a button event whose table entry `buttons[d][e.number]` is 0 makes no call of
`hit_drum`, whatever its value, its init flag and `hhShift`. -/
theorem unmapped_button_emits_nothing (signedChar : Bool) (t : Tables) (d : Nat)
    (s : ListenerState) (e : js_event) (hb : isButton e = true)
    (h0 : lookup t.buttons d e.number = some 0) :
    jslistener_step signedChar t d s e = some ({ hhShift := s.hhShift, vel := 127 }, []) := by
  simp [jslistener_step, hb, h0, toChar_127]

theorem unmapped_button_emits_nothing_witness :
    isButton ⟨0, 1, 129, 5⟩ = true ∧ lookup default_tables.buttons 0 5 = some 0 ∧
    jslistener_step true default_tables 0 ⟨1, 3⟩ ⟨0, 1, 129, 5⟩ = some (⟨1, 127⟩, []) :=
  ⟨by decide, by decide,
   unmapped_button_emits_nothing true default_tables 0 ⟨1, 3⟩ ⟨0, 1, 129, 5⟩ (by decide)
     (by decide)⟩

/-- C2: the hi-hat scenario. With `buttons[d][p] = 44` and `buttons[d][h] = 46`, the button
events (p, 1), (h, 1), (p, 0), (h, 1) processed in order from any state: after the first
`hhShift` is 1 (true), the second calls `hit_drum(42, 1, 127)` and sends note-on 42,
after the third `hhShift` is 0 (false), the fourth calls `hit_drum(46, 1, 127)` and sends
note-on 46. -/
theorem hihat_scenario (signedChar : Bool) (t : Tables) (d p h : Nat) (s0 : ListenerState)
    (e1 e2 e3 e4 : js_event)
    (hp : lookup t.buttons d p = some 44) (hh : lookup t.buttons d h = some 46)
    (hb : isButton e1 = true ∧ isButton e2 = true ∧ isButton e3 = true ∧ isButton e4 = true)
    (h1 : e1.number = p ∧ e1.value = 1) (h2 : e2.number = h ∧ e2.value = 1)
    (h3 : e3.number = p ∧ e3.value = 0) (h4 : e4.number = h ∧ e4.value = 1) :
    jslistener_step signedChar t d s0 e1 = some (⟨1, 127⟩, [⟨44, 1, 127⟩]) ∧
    jslistener_step signedChar t d ⟨1, 127⟩ e2 = some (⟨1, 127⟩, [⟨42, 1, 127⟩]) ∧
    sent [⟨42, 1, 127⟩] = [⟨.NOTEON, 10, 42, 127⟩] ∧
    jslistener_step signedChar t d ⟨1, 127⟩ e3 = some (⟨0, 127⟩, [⟨44, 0, 127⟩]) ∧
    jslistener_step signedChar t d ⟨0, 127⟩ e4 = some (⟨0, 127⟩, [⟨46, 1, 127⟩]) ∧
    sent [⟨46, 1, 127⟩] = [⟨.NOTEON, 10, 46, 127⟩] ∧
    jslistener_loop signedChar t d s0 [e1, e2, e3, e4] =
      some (⟨0, 127⟩, [⟨44, 1, 127⟩, ⟨42, 1, 127⟩, ⟨44, 0, 127⟩, ⟨46, 1, 127⟩]) := by
  obtain ⟨b1, b2, b3, b4⟩ := hb
  obtain ⟨n1, v1⟩ := h1
  obtain ⟨n2, v2⟩ := h2
  obtain ⟨n3, v3⟩ := h3
  obtain ⟨n4, v4⟩ := h4
  have hp1 : lookup t.buttons d e1.number = some 44 := by rw [n1]; exact hp
  have hh2 : lookup t.buttons d e2.number = some 46 := by rw [n2]; exact hh
  have hp3 : lookup t.buttons d e3.number = some 44 := by rw [n3]; exact hp
  have hh4 : lookup t.buttons d e4.number = some 46 := by rw [n4]; exact hh
  have r1 : jslistener_step signedChar t d s0 e1 = some (⟨1, 127⟩, [⟨44, 1, 127⟩]) := by
    rw [step_button_mapped signedChar t d s0 e1 44 b1 hp1 (by decide), v1]; simp
  have r2 : jslistener_step signedChar t d ⟨1, 127⟩ e2 = some (⟨1, 127⟩, [⟨42, 1, 127⟩]) := by
    rw [step_button_mapped signedChar t d ⟨1, 127⟩ e2 46 b2 hh2 (by decide), v2]; simp
  have r3 : jslistener_step signedChar t d ⟨1, 127⟩ e3 = some (⟨0, 127⟩, [⟨44, 0, 127⟩]) := by
    rw [step_button_mapped signedChar t d ⟨1, 127⟩ e3 44 b3 hp3 (by decide), v3]; simp
  have r4 : jslistener_step signedChar t d ⟨0, 127⟩ e4 = some (⟨0, 127⟩, [⟨46, 1, 127⟩]) := by
    rw [step_button_mapped signedChar t d ⟨0, 127⟩ e4 46 b4 hh4 (by decide), v4]; simp
  refine ⟨r1, r2, by decide, r3, r4, by decide, ?_⟩
  simp [jslistener_loop, r1, r2, r3, r4]

theorem hihat_scenario_witness :
    lookup default_tables.buttons 0 4 = some 44 ∧ lookup default_tables.buttons 0 3 = some 46 ∧
    jslistener_loop true default_tables 0 ⟨0, 5⟩
        [⟨10, 1, 1, 4⟩, ⟨20, 1, 1, 3⟩, ⟨30, 0, 1, 4⟩, ⟨40, 1, 1, 3⟩] =
      some (⟨0, 127⟩, [⟨44, 1, 127⟩, ⟨42, 1, 127⟩, ⟨44, 0, 127⟩, ⟨46, 1, 127⟩]) :=
  ⟨by decide, by decide,
   (hihat_scenario true default_tables 0 4 3 ⟨0, 5⟩ ⟨10, 1, 1, 4⟩ ⟨20, 1, 1, 3⟩ ⟨30, 0, 1, 4⟩
     ⟨40, 1, 1, 3⟩ (by decide) (by decide) (by decide) (by decide) (by decide) (by decide)
     (by decide)).2.2.2.2.2.2⟩

/-- On every raw value of an axis event except -32768 the velocity handed to `hit_drum`
is floor(|value| / 256), for both signednesses of `char`. -/
theorem axis_velocity_above_min (signedChar : Bool) (t : Tables) (d : Nat) (s : ListenerState)
    (e : js_event) (n : Int) (hb : isButton e = false)
    (hn : lookup t.axes d e.number = some n) (hn0 : n ≠ 0)
    (hlo : -32767 ≤ e.value) (hhi : e.value ≤ 32767) :
    jslistener_step signedChar t d s e =
      some ({ hhShift := s.hhShift, vel := |e.value| / 256 },
            [{ note := n, is_hit := if e.value ≠ 0 then 1 else 0, vel := |e.value| / 256 }]) := by
  have hv : toChar signedChar (Int.natAbs (Int.tdiv e.value 256)) = |e.value| / 256 := by
    rw [natAbs_tdiv_256]
    apply toChar_of_lt_128
    · exact Int.ediv_nonneg (abs_nonneg _) (by decide)
    · have : |e.value| ≤ 32767 := abs_le.mpr ⟨hlo, hhi⟩
      omega
  simp only [jslistener_step, hb, hn, hv]
  simp [hn0]

/-- Where `char` is unsigned the velocity handed to `hit_drum` is floor(|value| / 256) on
the whole 16-bit range. -/
theorem axis_velocity_unsigned_char (t : Tables) (d : Nat) (s : ListenerState)
    (e : js_event) (n : Int) (hb : isButton e = false)
    (hn : lookup t.axes d e.number = some n) (hn0 : n ≠ 0)
    (hlo : -32768 ≤ e.value) (hhi : e.value ≤ 32767) :
    jslistener_step false t d s e =
      some ({ hhShift := s.hhShift, vel := |e.value| / 256 },
            [{ note := n, is_hit := if e.value ≠ 0 then 1 else 0, vel := |e.value| / 256 }]) := by
  have hv : toChar false (Int.natAbs (Int.tdiv e.value 256)) = |e.value| / 256 := by
    rw [natAbs_tdiv_256]
    have h0 : 0 ≤ |e.value| / 256 := Int.ediv_nonneg (abs_nonneg _) (by decide)
    have : |e.value| ≤ 32768 := abs_le.mpr ⟨hlo, by omega⟩
    simp only [toChar]
    simp
    omega
  simp only [jslistener_step, hb, hn, hv]
  simp [hn0]

/-- C3: at the raw value -32768, with `char` signed, the axis event mapped by
`axes[0][4] = 51` hands `hit_drum` the velocity -128, while floor(|-32768| / 256) is 128:
`abs(e.value/256)` is 128 and does not fit the `char` it is stored in. -/
theorem axis_velocity_at_int16_min :
    js_event.inRange ⟨0, -32768, JS_EVENT_AXIS, 4⟩ ∧
    lookup default_tables.axes 0 4 = some 51 ∧
    jslistener_step true default_tables 0 ⟨0, 127⟩ ⟨0, -32768, JS_EVENT_AXIS, 4⟩ =
      some (⟨0, -128⟩, [⟨51, 1, -128⟩]) ∧
    |(-32768 : Int)| / 256 = 128 := by
  refine ⟨by decide, by decide, by decide, by decide⟩

/-- C4: a button event whose entry is a nonzero note makes exactly one call of `hit_drum`
and so sends exactly one event; when the note is 44 the step also stores the value of
the event in `hhShift`, and the event sent is the note-on (value nonzero) or note-off
(value zero) of note 44. -/
theorem mapped_button_emits_once (signedChar : Bool) (t : Tables) (d : Nat)
    (s : ListenerState) (e : js_event) (n : Int) (hb : isButton e = true)
    (hn : lookup t.buttons d e.number = some n) (hn0 : n ≠ 0) :
    ∃ s1 c, jslistener_step signedChar t d s e = some (s1, [c]) ∧
      (sent [c]).length = 1 ∧
      (n = 44 → s1.hhShift = e.value ∧
        sent [c] = [if e.value ≠ 0 then ⟨.NOTEON, 10, 44, 127⟩ else ⟨.NOTEOFF, 10, 44, 0⟩]) := by
  refine ⟨_, _, step_button_mapped signedChar t d s e n hb hn hn0, rfl, ?_⟩
  intro h44
  subst h44
  refine ⟨by simp, ?_⟩
  by_cases hv : e.value = 0
  · simp [sent, hv, hit_drum_off, toUChar]
  · simp [sent, hv, hit_drum_on, toUChar]

theorem mapped_button_emits_once_witness :
    isButton ⟨0, 1, 1, 4⟩ = true ∧ lookup default_tables.buttons 0 4 = some 44 ∧
    ∃ s1 c, jslistener_step false default_tables 0 ⟨0, 127⟩ ⟨0, 1, 1, 4⟩ = some (s1, [c]) ∧
      (sent [c]).length = 1 ∧
      ((44 : Int) = 44 → s1.hhShift = (⟨0, 1, 1, 4⟩ : js_event).value ∧
        sent [c] = [if (⟨0, 1, 1, 4⟩ : js_event).value ≠ 0 then ⟨.NOTEON, 10, 44, 127⟩
                    else ⟨.NOTEOFF, 10, 44, 0⟩]) :=
  ⟨by decide, by decide,
   mapped_button_emits_once false default_tables 0 ⟨0, 127⟩ ⟨0, 1, 1, 4⟩ 44 (by decide)
     (by decide) (by decide)⟩

/-- C5, as stated, fails: a button release (value 0) on `buttons[0][2] = 38` sends a
note-off whose velocity is 0, not 127. -/
theorem button_velocity_always_127_fails :
    ¬ (∀ (signedChar : Bool) (t : Tables) (d : Nat) (s s1 : ListenerState) (e : js_event)
        (calls : List HitCall), isButton e = true →
        jslistener_step signedChar t d s e = some (s1, calls) →
        ∀ ev ∈ sent calls, ev.velocity = 127) := by
  intro h
  have h2 := h true default_tables 0 ⟨0, 127⟩ ⟨0, 127⟩ ⟨0, 0, 1, 2⟩ [⟨38, 0, 127⟩] (by decide)
    (by decide) ⟨.NOTEOFF, 10, 38, 0⟩ (by decide)
  exact absurd h2 (by decide)

/-- C5, amended: a button event with a nonzero entry hands `hit_drum` the velocity 127,
whatever the value of the event and whatever `vel` held before (an earlier axis event);
the event sent is a note-on of velocity 127 when the value is nonzero, and a note-off of
velocity 0 when the value is zero. -/
theorem button_velocity (signedChar : Bool) (t : Tables) (d : Nat) (s : ListenerState)
    (e : js_event) (n : Int) (hb : isButton e = true)
    (hn : lookup t.buttons d e.number = some n) (hn0 : n ≠ 0) :
    ∃ s1 c, jslistener_step signedChar t d s e = some (s1, [c]) ∧ c.vel = 127 ∧
      (e.value ≠ 0 → sent [c] = [⟨.NOTEON, 10, toUChar c.note, 127⟩]) ∧
      (e.value = 0 → sent [c] = [⟨.NOTEOFF, 10, toUChar c.note, 0⟩]) := by
  refine ⟨_, _, step_button_mapped signedChar t d s e n hb hn hn0, rfl, ?_, ?_⟩
  · intro hv
    simp [sent, hit_drum_on _ _ _ hv, toUChar]
  · intro hv
    simp [sent, hv, hit_drum_off]

theorem button_velocity_witness :
    isButton ⟨0, 1, 1, 2⟩ = true ∧ lookup default_tables.buttons 0 2 = some 38 ∧
    ∃ s1 c, jslistener_step true default_tables 0 ⟨0, 9⟩ ⟨0, 1, 1, 2⟩ = some (s1, [c]) ∧
      c.vel = 127 ∧
      ((⟨0, 1, 1, 2⟩ : js_event).value ≠ 0 → sent [c] = [⟨.NOTEON, 10, toUChar c.note, 127⟩]) ∧
      ((⟨0, 1, 1, 2⟩ : js_event).value = 0 → sent [c] = [⟨.NOTEOFF, 10, toUChar c.note, 0⟩]) :=
  ⟨by decide, by decide,
   button_velocity true default_tables 0 ⟨0, 9⟩ ⟨0, 1, 1, 2⟩ 38 (by decide) (by decide)
     (by decide)⟩

/-- Idempotence of the hi-hat substitution when every access in between is inside the
tables: a button event `e` mapped to note 46, processed before and after any events `mid`
that are axis events or button events not mapped to 44 (predicate `leavesPedal`): both
times the same call of `hit_drum` is made, with note 42 when `hhShift` is
nonzero at the start and note 46 when it is zero, so the same note is sent both times,
and `hhShift` ends as it started. -/
theorem hihat_substitution_idempotent (signedChar : Bool) (t : Tables) (d : Nat)
    (s : ListenerState) (e : js_event) (mid : List js_event) (hb : isButton e = true)
    (h46 : lookup t.buttons d e.number = some 46)
    (hmid : ∀ m ∈ mid, leavesPedal t d m) :
    ∃ sfin out,
      jslistener_loop signedChar t d s (e :: (mid ++ [e])) =
        some (sfin, (⟨if s.hhShift ≠ 0 then 42 else 46, e.value, 127⟩ : HitCall) ::
          (out ++ [⟨if s.hhShift ≠ 0 then 42 else 46, e.value, 127⟩])) ∧
      (hit_drum (if s.hhShift ≠ 0 then 42 else 46) e.value 127).note =
        (if s.hhShift ≠ 0 then 42 else 46) ∧
      sfin.hhShift = s.hhShift := by
  have step46 : ∀ s0 : ListenerState, jslistener_step signedChar t d s0 e =
      some (⟨s0.hhShift, 127⟩, [⟨if s0.hhShift ≠ 0 then 42 else 46, e.value, 127⟩]) := by
    intro s0
    rw [step_button_mapped signedChar t d s0 e 46 hb h46 (by decide)]
    simp
  obtain ⟨s1, out, hl, hs1⟩ := loop_keeps_modifier signedChar t d mid ⟨s.hhShift, 127⟩ hmid
  simp only at hs1
  have hlast : jslistener_loop signedChar t d s1 [e] =
      some (⟨s.hhShift, 127⟩, [⟨if s.hhShift ≠ 0 then 42 else 46, e.value, 127⟩]) := by
    simp [jslistener_loop, step46 s1, hs1]
  have hrest := loop_append signedChar t d mid [e] _ _ _ _ _ hl hlast
  refine ⟨⟨s.hhShift, 127⟩, out, ?_, ?_, rfl⟩
  · rw [loop_cons signedChar t d s _ _ e (mid ++ [e]) _ _ (step46 s) hrest]
    simp
  · by_cases hs : s.hhShift = 0 <;> by_cases hv : e.value = 0 <;>
      simp [hs, hv, hit_drum, snd_seq_ev_set_noteon, snd_seq_ev_set_noteoff, toUChar]

theorem hihat_substitution_idempotent_witness :
    ∃ sfin out,
      jslistener_loop true default_tables 0 ⟨1, 127⟩
          (⟨0, 1, 1, 3⟩ :: ([⟨0, 1, 1, 0⟩, ⟨0, -300, 2, 4⟩, ⟨0, 0, 1, 9⟩] ++ [⟨0, 1, 1, 3⟩])) =
        some (sfin, (⟨if (⟨1, 127⟩ : ListenerState).hhShift ≠ 0 then 42 else 46,
            (⟨0, 1, 1, 3⟩ : js_event).value, 127⟩ : HitCall) ::
          (out ++ [⟨if (⟨1, 127⟩ : ListenerState).hhShift ≠ 0 then 42 else 46,
            (⟨0, 1, 1, 3⟩ : js_event).value, 127⟩])) ∧
      (hit_drum (if (⟨1, 127⟩ : ListenerState).hhShift ≠ 0 then 42 else 46)
          (⟨0, 1, 1, 3⟩ : js_event).value 127).note =
        (if (⟨1, 127⟩ : ListenerState).hhShift ≠ 0 then 42 else 46) ∧
      sfin.hhShift = (⟨1, 127⟩ : ListenerState).hhShift :=
  hihat_substitution_idempotent true default_tables 0 ⟨1, 127⟩ ⟨0, 1, 1, 3⟩
    [⟨0, 1, 1, 0⟩, ⟨0, -300, 2, 4⟩, ⟨0, 0, 1, 9⟩] (by decide) (by decide) (by decide)

/-- C6: the idempotence fails on in-between events whose number is outside the row. With
`buttons[0][3] = 46` and `hhShift` 0, the first event sends note 46; the in-between
button event with number 16 has no entry in `buttons[0]` (so it is not mapped to 44), its
unchecked access `buttons[0][16]` is outside the row and the loop over the three events
has no defined result; the entry that follows the row in memory is `buttons[1][0] = 44`.
The same holds for an in-between axis event with number 12. -/
theorem hihat_idempotence_breaks_out_of_bounds :
    pedal_on_slot1.wellSized ∧
    js_event.inRange ⟨0, 1, JS_EVENT_BUTTON, 3⟩ ∧ js_event.inRange ⟨0, 1, JS_EVENT_BUTTON, 16⟩ ∧
    js_event.inRange ⟨0, 500, JS_EVENT_AXIS, 12⟩ ∧
    isButton ⟨0, 1, JS_EVENT_BUTTON, 3⟩ = true ∧ lookup pedal_on_slot1.buttons 0 3 = some 46 ∧
    isButton ⟨0, 1, JS_EVENT_BUTTON, 16⟩ = true ∧ lookup pedal_on_slot1.buttons 0 16 = none ∧
    isButton ⟨0, 500, JS_EVENT_AXIS, 12⟩ = false ∧
    jslistener_step true pedal_on_slot1 0 ⟨0, 127⟩ ⟨0, 1, JS_EVENT_BUTTON, 3⟩ =
      some (⟨0, 127⟩, [⟨46, 1, 127⟩]) ∧
    jslistener_loop true pedal_on_slot1 0 ⟨0, 127⟩
      [⟨0, 1, JS_EVENT_BUTTON, 3⟩, ⟨0, 1, JS_EVENT_BUTTON, 16⟩, ⟨0, 1, JS_EVENT_BUTTON, 3⟩] =
      none ∧
    jslistener_loop true pedal_on_slot1 0 ⟨0, 127⟩
      [⟨0, 1, JS_EVENT_BUTTON, 3⟩, ⟨0, 500, JS_EVENT_AXIS, 12⟩, ⟨0, 1, JS_EVENT_BUTTON, 3⟩] =
      none ∧
    lookup pedal_on_slot1.buttons 1 0 = some 44 := by
  refine ⟨by decide, by decide, by decide, by decide, by decide, by decide, by decide,
    by decide, by decide, by decide, by decide, by decide, by decide⟩

/-- With tables of the declared dimensions, a button index below `max_buttons` and an
axis index below `max_axes` are looked up inside the bounds, for a slot below
`js_devices`. -/
theorem lookup_defined_below_max (t : Tables) (hw : t.wellSized) (d n : Nat)
    (hd : d < js_devices) :
    (n < max_buttons → ∃ v, lookup t.buttons d n = some v) ∧
    (n < max_axes → ∃ v, lookup t.axes d n = some v) :=
  ⟨fun hn => lookup_in_bounds t.buttons js_devices max_buttons d n hw.1 hw.2.1 hd hn,
   fun hn => lookup_in_bounds t.axes js_devices max_axes d n hw.2.2.1 hw.2.2.2 hd hn⟩

/-- C10: the listener indexes the tables with `e.number` unchecked. A button event with
number 16 and an axis event with number 12, both values a `__u8` can hold, index
`buttons[0]` and `axes[0]` outside their bounds: the lookup fails and the step has no
defined result. -/
theorem control_index_out_of_bounds :
    js_event.inRange ⟨0, 1, JS_EVENT_BUTTON, 16⟩ ∧ js_event.inRange ⟨0, 1, JS_EVENT_AXIS, 12⟩ ∧
    default_tables.wellSized ∧
    isButton ⟨0, 1, JS_EVENT_BUTTON, 16⟩ = true ∧ isButton ⟨0, 1, JS_EVENT_AXIS, 12⟩ = false ∧
    lookup default_tables.buttons 0 16 = none ∧ lookup default_tables.axes 0 12 = none ∧
    jslistener_step true default_tables 0 ⟨0, 127⟩ ⟨0, 1, JS_EVENT_BUTTON, 16⟩ = none ∧
    jslistener_step true default_tables 0 ⟨0, 127⟩ ⟨0, 1, JS_EVENT_AXIS, 12⟩ = none := by
  refine ⟨by decide, by decide, by decide, by decide, by decide, by decide, by decide,
    by decide, by decide⟩

/-! ## The dispatcher -/

/-- The exit code of `main` is 0 exactly when some configured slot was opened. -/
theorem exit_zero_iff_opened (devices : List (Option (List Nat)))
    (openRes createRes : Nat → Int) :
    (main true devices openRes createRes).exitCode = 0 ↔
      ∃ d, d < js_devices ∧ (main_slot devices openRes createRes d).1 ≥ 0 := by
  simp only [main, Bool.not_true, Bool.false_eq_true, if_false]
  constructor
  · intro h
    by_cases hl : ((List.range js_devices).filter
        (fun x => decide ((main_slot devices openRes createRes x).1 ≥ 0))).length = 0
    · simp [hl] at h
    · obtain ⟨x, hx⟩ := List.exists_mem_of_length_pos (Nat.pos_of_ne_zero hl)
      rw [List.mem_filter, List.mem_range] at hx
      exact ⟨x, hx.1, by simpa using hx.2⟩
  · rintro ⟨x, hx, hfd⟩
    have hmem : x ∈ (List.range js_devices).filter
        (fun x => decide ((main_slot devices openRes createRes x).1 ≥ 0)) := by
      rw [List.mem_filter, List.mem_range]
      exact ⟨hx, by simpa using hfd⟩
    have hpos := List.length_pos_of_mem hmem
    have hne : ((List.range js_devices).filter
        (fun x => decide ((main_slot devices openRes createRes x).1 ≥ 0))).length ≠ 0 := by omega
    simp [hne]

/-- When some listener thread was created, the exit code of `main` is 0. -/
theorem exit_zero_of_listener (devices : List (Option (List Nat)))
    (openRes createRes : Nat → Int)
    (h : (main true devices openRes createRes).listeners ≠ []) :
    (main true devices openRes createRes).exitCode = 0 := by
  rw [exit_zero_iff_opened]
  obtain ⟨x, hx⟩ := List.exists_mem_of_ne_nil _ h
  simp only [main, Bool.not_true, Bool.false_eq_true, if_false] at hx
  rw [List.mem_filter, List.mem_range] at hx
  exact ⟨x, hx.1, main_slot_listener_opened devices openRes createRes x hx.2⟩

/-- Three configured devices, `open` failing on the second only: listeners run for the
first and the third, and the exit code is 0. -/
theorem three_devices_second_open_fails :
    main true [some (bytes "/dev/input/js0"), some (bytes "/dev/input/js1"),
        some (bytes "/dev/input/js2")]
      (fun d => if d = 1 then -1 else 3 + d) (fun _ => 0) =
      { exitCode := 0, listeners := [0, 2], joined := [0, 2] } := by
  decide

/-- C7: one configured device whose `open` succeeds and whose `pthread_create` fails
(returns 11): no listener is created, yet `ct` counts the open descriptor, slot 0 is
joined, and the exit code is 0. -/
theorem exit_zero_without_listener :
    main true (cleared.devices.set 0 (some (bytes "/dev/input/js0"))) (fun _ => 3)
      (fun _ => 11) = { exitCode := 0, listeners := [], joined := [0] } := by
  decide

/-! ## The configuration file -/

set_option maxRecDepth 100000

/-- The defaults and the text computed by `writeconfig` on cleared tables are the
configuration and the text written out above. -/
theorem writeconfig_cleared :
    writeconfig true cleared = some (first_run_config, first_run_text) := by
  decide!

/-- The file a first run writes is not empty. -/
theorem first_run_text_nonempty : first_run_text ≠ [] := by
  decide!

/-- With one spare byte in every block that `calloc` returns, parsing the file a first
run writes gives back the configuration of the first run: device names and both
tables. -/
theorem reparse_with_spare_byte (c1 : Nat) :
    readconfig (fun n => n + 1) c1 (some first_run_text) true =
      some (first_run_config, none) := by
  have h : readconfig (fun n => n + 1) 0 (some first_run_text) true =
      some (first_run_config, none) := by decide!
  simp only [readconfig] at h ⊢
  rw [read_loop_first_byte _ _ first_run_text_nonempty c1 0]
  exact h

/-- C9: a first run (no file) returns the default configuration and writes the default
text. When `readconfig` parses that text, the line `[/dev/input/js0]` makes it request
`calloc(15)` and `strcpy` 16 bytes into the block: with the 15 bytes C guarantees the
store is outside the block and the second run has no defined result, instead of the
configuration of the first run. -/
theorem default_file_reparse_overruns (c0 c1 : Nat) :
    readconfig calloc_exact c0 none true = some (first_run_config, some first_run_text) ∧
    end_of_line calloc_exact
      { c := 10, buffer := bytes "[/dev/input/js0]", bufpos := 0, dev := -1, cfg := cleared } =
      none ∧
    readconfig calloc_exact c1 (some first_run_text) true = none := by
  refine ⟨?_, by decide!, ?_⟩
  · simp only [readconfig, writeconfig_cleared, Option.map_some']
  · have h : readconfig calloc_exact 0 (some first_run_text) true = none := by decide!
    simp only [readconfig] at h ⊢
    rw [read_loop_first_byte _ _ first_run_text_nonempty c1 0]
    exact h

end Js2midi
